import Mathlib

/-!
Verification of the distributed document filesystem
(coordinator / storage-node system): a shallow embedding of the
sentence engine, ACL store, session gate, lock and undo tables, and
the request handlers, with theorems checking the specified behavior.
-/

/-- Delimiter characters of the sentence engine: `.`, `!`, `?`. -/
def isDelim (c : Char) : Bool := c == '.' || c == '!' || c == '?'

/-- C `isspace` in the default locale: space, `\t`, `\n`, `\v`, `\f`, `\r`. -/
def isSpaceC (c : Char) : Bool :=
  c == ' ' || c == '\t' || c == '\n' || c == Char.ofNat 11 || c == Char.ofNat 12 || c == '\r'

/-- Byte content of a C string literal, as a list of characters. -/
def strChars (s : String) : List Char := s.toList

/-- `sentence_has_delimiter` (sentence_parser.c / storage_server.c): trims
trailing whitespace, then requires the last character to be a delimiter and
the character before it (if any) to not be a delimiter. -/
def sentence_has_delimiter (s : List Char) : Bool :=
  match (s.reverse).dropWhile isSpaceC with
  | [] => false
  | last :: rest =>
    if !(isDelim last) then false
    else
      match rest with
      | [] => true
      | second :: _ => !(isDelim second)

/-- Extraction loop of `parse_sentences`: every delimiter closes the current
sentence (delimiter included); whitespace right after a delimiter is skipped
before the next sentence starts; a trailing run without delimiter becomes a
final sentence when nonempty.  `skipping` is true while the scan sits in the
whitespace-skip that follows a delimiter. -/
def psLoop : List Char → List Char → Bool → List (List Char)
  | [], acc, _ => if acc.isEmpty then [] else [acc]
  | c :: rest, acc, skipping =>
    if skipping && isSpaceC c then psLoop rest acc true
    else if isDelim c then (acc ++ [c]) :: psLoop rest [] true
    else psLoop rest (acc ++ [c]) false

/-- `parse_sentences` (sentence_parser.c / storage_server.c): returns no
sentences for empty or all-whitespace content; otherwise each `.`, `!` or `?`
character closes a sentence. -/
def parse_sentences (content : List Char) : List (List Char) :=
  if content.all isSpaceC then [] else psLoop content [] false

/-- Separators used by `strtok(copy, " \t\n")` in `parse_words` and in the
edit-loop payload tokenizer. -/
def isTokSep (c : Char) : Bool := c == ' ' || c == '\t' || c == '\n'

/-- Worker for whitespace tokenization (`strtok` with `" \t\n"`). -/
def twLoop : List Char → List Char → List (List Char)
  | [], acc => if acc.isEmpty then [] else [acc]
  | c :: rest, acc =>
    if isTokSep c then
      if acc.isEmpty then twLoop rest [] else acc :: twLoop rest []
    else twLoop rest (acc ++ [c])

/-- Whitespace tokenization as performed by `strtok(_, " \t\n")` loops. -/
def tokenizeWs (l : List Char) : List (List Char) := twLoop l []

/-- `parse_words` (sentence_parser.c / storage_server.c): maximal runs of
non-separator characters. -/
def parse_words (sentence : List Char) : List (List Char) := tokenizeWs sentence

/-- `rebuild_sentence`: words joined with single spaces. -/
def rebuild_sentence (words : List (List Char)) : List Char :=
  List.intercalate [' '] words

/-- Outcome of the sentence-access validation at the start of the WRITE
handler: either the (possibly extended) sentence array the edit proceeds on,
or `SENT_OOR` with the value placed into the reply's `word_index` field. -/
inductive SentAccess where
  | ok (sentences : List (List Char))
  | oor (reply_word_index : Int)
deriving DecidableEq

/-- Sentence-access validation of the `MSG_WRITE` handler
(storage_server.c lines 736-829, identical in storage_server_modular.c):
an empty (or whitespace-only) file admits only sentence 0, materialized as
one empty sentence; for a non-empty file, a negative index fails with
`word_index = S-1`, index `S` appends an empty sentence when sentence `S-1`
ends with a single delimiter and fails with `word_index = S-1` otherwise,
an index above `S` fails with `word_index = S`, and indices `0..S-1` pass. -/
def write_sentence_access (content : List Char) (sentence_num : Int) : SentAccess :=
  let sentences := parse_sentences content
  let S : Int := sentences.length
  if S = 0 then
    if sentence_num ≠ 0 then .oor 0
    else .ok [[]]
  else
    if sentence_num < 0 then .oor (S - 1)
    else if sentence_num = S then
      if sentence_has_delimiter (sentences.getLastD []) then .ok (sentences ++ [[]])
      else .oor (S - 1)
    else if S < sentence_num then .oor S
    else .ok sentences

/-- Outcome of one update frame of the edit loop: `WORD_OOR` with the current
word count placed into the reply's `word_index`, or the updated word array. -/
inductive EditResult where
  | wordOor (current_count : Nat)
  | ok (words : List (List Char))
deriving DecidableEq

/-- One update frame of the monolithic edit loop (storage_server.c lines
996-1061): reject indices outside `[0, word_count]` with `WORD_OOR`; tokenize
the payload on `" \t\n"` (at most 256 tokens are collected); an empty token
list leaves the words unchanged; otherwise the tokens are inserted at the
index, shifting the existing words rightward. -/
def edit_step (words : List (List Char)) (word_idx : Int) (payload : List Char) : EditResult :=
  if word_idx < 0 || (words.length : Int) < word_idx then .wordOor words.length
  else
    let toks := (tokenizeWs payload).take 256
    if toks.isEmpty then .ok words
    else .ok (words.take word_idx.toNat ++ toks ++ words.drop word_idx.toNat)

/-- One update frame of the modular edit loop (storage_server_modular.c lines
866-907): same index bounds, but the payload is not tokenized — a nonempty
payload is inserted verbatim as one single word, and an empty payload deletes
the word at the index (no-op when the index equals the word count). -/
def edit_step_modular (words : List (List Char)) (word_idx : Int) (payload : List Char) : EditResult :=
  if word_idx < 0 || (words.length : Int) < word_idx then .wordOor words.length
  else if payload.isEmpty then
    if word_idx < (words.length : Int) then
      .ok (words.take word_idx.toNat ++ words.drop (word_idx.toNat + 1))
    else .ok words
  else .ok (words.take word_idx.toNat ++ [payload] ++ words.drop word_idx.toNat)

/-- Per-file state seen by the UNDO/commit protocol on a storage node: the
live content, the `.backup` sidecar (if present), and the undo flag kept by
the undo table (`last_undo_performed` / `undo_performed`). -/
structure FileState where
  live : List Char
  backup : Option (List Char)
  undoFlag : Bool
deriving DecidableEq

/-- `MSG_UNDO` handler of storage_server.c (lines 1290-1386), for an existing
file: no sidecar fails `ERR_SERVER_ERROR` (500); a set undo flag fails
`ERR_PERMISSION_DENIED` (403) leaving everything unchanged; otherwise live
and sidecar are swapped (via the temp sidecar) and the flag is set. -/
def msg_undo (st : FileState) : Nat × FileState :=
  match st.backup with
  | none => (500, st)
  | some b =>
    if st.undoFlag then (403, st)
    else (200, { live := b, backup := some st.live, undoFlag := true })

/-- `MSG_UNDO` handler of storage_server_modular.c (lines 575-631): a set
undo flag fails `ERR_INVALID_REQUEST` (400) first; a missing sidecar fails
`ERR_FILE_NOT_FOUND` (404); otherwise the sidecar is copied over the live
file (the sidecar itself is kept) and the flag is set. -/
def msg_undo_modular (st : FileState) : Nat × FileState :=
  if st.undoFlag then (400, st)
  else
    match st.backup with
    | none => (404, st)
    | some b => (200, { live := b, backup := some b, undoFlag := true })

/-- `ETIRW` commit of the edit loop (both storage servers): the old live
content is copied to the `.backup` sidecar, the rebuilt content replaces the
live file, and `set_undo_state(filename, 0)` clears the undo flag. -/
def etirw_commit (st : FileState) (newContent : List Char) : FileState :=
  { live := newContent, backup := some st.live, undoFlag := false }

/-- ACL entry `(username, can_read, can_write)` (access_control.h). -/
structure AclEntry where
  username : String
  can_read : Bool
  can_write : Bool
deriving DecidableEq

/-- Update pass of `add_access`: overwrite the first entry for the username,
or report that none exists. -/
def updateAcl : List AclEntry → String → Bool → Bool → Option (List AclEntry)
  | [], _, _, _ => none
  | e :: rest, u, r, w =>
    if e.username = u then some ({ e with can_read := r, can_write := w } :: rest)
    else
      match updateAcl rest u r w with
      | some rest2 => some (e :: rest2)
      | none => none

/-- `add_access` (access_control.c lines 33-55): update the existing entry for
the username if there is one, otherwise prepend a new entry. -/
def add_access (acl : List AclEntry) (u : String) (r w : Bool) : List AclEntry :=
  match updateAcl acl u r w with
  | some acl2 => acl2
  | none => ⟨u, r, w⟩ :: acl

/-- `remove_access` (access_control.c lines 58-78): remove the first entry for
the username; the Bool reports whether one was removed. -/
def remove_access : List AclEntry → String → List AclEntry × Bool
  | [], _ => ([], false)
  | e :: rest, u =>
    if e.username = u then (rest, true)
    else
      let r := remove_access rest u
      (e :: r.1, r.2)

/-- Access request node `(request_id, requester, access_type, status)` with
status 0 = pending, 1 = approved, 2 = denied (access_control.h). -/
structure AccessRequestNode where
  request_id : Nat
  requester : String
  access_type : Nat
  status : Nat
deriving DecidableEq

/-- `respond_to_request` (access_control.c lines 151-174): find the pending
request with the given id; mark it approved or denied; on approval call
`add_access` with `can_read = (type == 1 || type == 3)` and
`can_write = (type == 2 || type == 3)`.  Returns `none` when no pending
request matches (C returns -1). -/
def respond_to_request :
    List AccessRequestNode → List AclEntry → Nat → Bool →
    Option (List AccessRequestNode × List AclEntry)
  | [], _, _, _ => none
  | req :: rest, acl, rid, approve =>
    if req.request_id = rid ∧ req.status = 0 then
      let req2 := { req with status := if approve then 1 else 2 }
      let acl2 :=
        if approve then
          add_access acl req.requester
            (req.access_type == 1 || req.access_type == 3)
            (req.access_type == 2 || req.access_type == 3)
        else acl
      some (req2 :: rest, acl2)
    else
      match respond_to_request rest acl rid approve with
      | some (rest2, acl2) => some (req :: rest2, acl2)
      | none => none

/-- File record as the ACL handlers see it: owner plus ACL list. -/
structure FileRec where
  owner : String
  acl : List AclEntry
deriving DecidableEq

/-- `MSG_ADD_ACCESS` handler (naming_server.c lines 1519-1596, identical in
naming_server_modular.c lines 676-740), for an existing file: only the owner
may grant (403); the target must be a registered user (400); `can_read` and
`can_write` come from bits 0 and 1 of `flags`, with write forcing read; then
`add_access` runs — there is no check that the target is not the owner. -/
def msg_add_access (f : FileRec) (requester target : String) (flags : Nat)
    (registered : List String) : Nat × FileRec :=
  if f.owner ≠ requester then (403, f)
  else if ¬ registered.contains target then (400, f)
  else
    let can_read0 := (flags &&& 1) ≠ 0
    let can_write := (flags &&& 2) ≠ 0
    let can_read := can_read0 || can_write
    (200, { f with acl := add_access f.acl target can_read can_write })

/-- `MSG_REM_ACCESS` handler (naming_server.c lines 1598-1651, identical in
naming_server_modular.c), for an existing file: only the owner may revoke
(403); removing the owner themself is rejected (400); otherwise
`remove_access` runs (400 when the target had no entry). -/
def msg_rem_access (f : FileRec) (requester target : String) : Nat × FileRec :=
  if f.owner ≠ requester then (403, f)
  else if target = requester then (400, f)
  else
    let r := remove_access f.acl target
    if r.2 then (200, { f with acl := r.1 })
    else (400, { f with acl := r.1 })

/-- Active session `(username, client_ip)` (user_session_manager.h). -/
structure Session where
  username : String
  ip : String
deriving DecidableEq

/-- `find_active_session` (user_session_manager.c lines 72-86). -/
def find_active_session (sessions : List Session) (u : String) : Option Session :=
  sessions.find? (fun s => s.username == u)

/-- `add_active_session` (user_session_manager.c lines 89-113): refuse when an
entry for the username exists, otherwise prepend a new session. -/
def add_active_session (sessions : List Session) (u ip : String) : Bool × List Session :=
  if sessions.any (fun s => s.username == u) then (false, sessions)
  else (true, ⟨u, ip⟩ :: sessions)

/-- `remove_active_session` (user_session_manager.c lines 116-140): remove the
first entry for the username. -/
def remove_active_session : List Session → String → List Session
  | [], _ => []
  | s :: rest, u => if s.username = u then rest else s :: remove_active_session rest u

/-- Reply of the registration step: `LOCKED` describing the pre-existing
session, `LOCKED` from the re-check inside `add_active_session`, or the
welcome reply. -/
inductive RegisterResult where
  | locked_reply (existing : Session)
  | locked_conflict
  | welcome
deriving DecidableEq

/-- `MSG_REGISTER_CLIENT` handling in `handle_client` (naming_server.c lines
928-971, identical in naming_server_modular.c): an existing active session
for the username is rejected with `LOCKED` and its description, adding
nothing; otherwise the user is registered and `add_active_session` adds
exactly one entry. -/
def register_client (sessions : List Session) (u ip : String) :
    RegisterResult × List Session :=
  match find_active_session sessions u with
  | some s => (.locked_reply s, sessions)
  | none =>
    match add_active_session sessions u ip with
    | (true, s2) => (.welcome, s2)
    | (false, _) => (.locked_conflict, sessions)

/-- Sentence lock `(filename, sentence_num, username)` (lock_manager.h). -/
structure SentenceLock where
  filename : String
  sentence_num : Int
  username : String
deriving DecidableEq

/-- `find_sentence_lock` (lock_manager.c lines 12-27): first entry for the
`(file, sentence)` pair, whoever holds it. -/
def find_sentence_lock (locks : List SentenceLock) (f : String) (n : Int) :
    Option SentenceLock :=
  locks.find? (fun l => l.filename == f && l.sentence_num == n)

/-- `add_sentence_lock` (lock_manager.c lines 30-55): refuse whenever any
entry for the `(file, sentence)` pair exists — the holder's username is not
compared — otherwise prepend a new lock. -/
def add_sentence_lock (locks : List SentenceLock) (f : String) (n : Int) (u : String) :
    Bool × List SentenceLock :=
  if locks.any (fun l => l.filename == f && l.sentence_num == n) then (false, locks)
  else (true, ⟨f, n, u⟩ :: locks)

/-- Outcome of the lock attempt in the WRITE handler. -/
inductive LockAttempt where
  | acquired (locks : List SentenceLock)
  | refused (code : Nat) (holder : String)
deriving DecidableEq

/-- Lock attempt of the `MSG_WRITE` handler (storage_server.c lines 831-845):
on a failed `add_sentence_lock` the reply is `LOCKED` (423) carrying the
current holder's username as data.  (The `none` fallback is unreachable: the
add fails only when an entry exists.) -/
def write_lock_attempt (locks : List SentenceLock) (f : String) (n : Int) (u : String) :
    LockAttempt :=
  match add_sentence_lock locks f n u with
  | (true, l2) => .acquired l2
  | (false, _) =>
    match find_sentence_lock locks f n with
    | some l => .refused 423 l.username
    | none => .refused 423 ""

/-- Node record `(id, ip, client_port, is_active)` (storage_server_manager.h),
restricted to the fields the selection and READ paths read. -/
structure NodeRec where
  id : String
  ip : String
  client_port : Nat
  is_active : Bool
deriving DecidableEq

/-- `find_ss_by_id` (storage_server_manager.c lines 32-41). -/
def find_ss_by_id (nodes : List NodeRec) (node_id : String) : Option NodeRec :=
  nodes.find? (fun n => n.id == node_id)

/-- `get_available_ss` (storage_server_manager.c lines 19-29): the first
active node in list order. -/
def get_available_ss (nodes : List NodeRec) : Option NodeRec :=
  nodes.find? (fun n => n.is_active)

/-- New-node path of `register_storage_server` (storage_server_manager.c
lines 100-111, same in naming_server.c lines 602-613): the record is created
active and prepended, so the list holds nodes in reverse registration
order. -/
def register_storage_server (nodes : List NodeRec) (id ip : String) (client_port : Nat) :
    List NodeRec :=
  ⟨id, ip, client_port, true⟩ :: nodes

/-- Node selection result of the CREATE handler. -/
inductive CreateSelect where
  | chosen (n : NodeRec)
  | ss_unavailable
deriving DecidableEq

/-- Node selection of the `MSG_CREATE` handler (naming_server.c lines
1048-1072): a nonempty data payload names the node explicitly; otherwise the
handler takes `get_available_ss()`. -/
def msg_create_select (nodes : List NodeRec) (dataField : String) : CreateSelect :=
  if dataField ≠ "" then
    match find_ss_by_id nodes dataField with
    | some n => .chosen n
    | none => .ss_unavailable
  else
    match get_available_ss nodes with
    | some n => .chosen n
    | none => .ss_unavailable

/-- Coordinator-side state the READ path consults: the node list, the `cache/`
directory and the `backups/<node>/` directories. -/
structure ReadEnv where
  nodes : List NodeRec
  cache : List (String × List Char)
  backups : List (String × String × List Char)
deriving DecidableEq

/-- Lookup of `cache/<filename>` on the coordinator. -/
def lookupCache (env : ReadEnv) (filename : String) : Option (List Char) :=
  (env.cache.find? (fun p => p.1 == filename)).map (fun p => p.2)

/-- Lookup of `backups/<node_id>/<filename>` on the coordinator. -/
def lookupBackup (env : ReadEnv) (node_id filename : String) : Option (List Char) :=
  (env.backups.find? (fun p => p.1 == node_id && p.2.1 == filename)).map (fun p => p.2.2)

/-- Reply of the READ path: a referral to the live node, inline content (from
cache or backup), a failover referral that also reassigns the file, or
`UNAVAILABLE`. -/
inductive ReadOutcome where
  | referral (ip : String) (port : Nat)
  | inline_content (content : List Char)
  | failover (node_id ip : String) (port : Nat)
  | unavailable
deriving DecidableEq

/-- Fallback chain of the modular READ handler (naming_server_modular.c lines
284-360), reached when the owning node is missing or inactive: cache hit
serves inline; else backup hit serves inline; else an available node (when it
is not the very record looked up) is assigned and referred to; else
`UNAVAILABLE`. -/
def read_fallback (env : ReadEnv) (filename node_id : String) (ssOpt : Option NodeRec) :
    ReadOutcome :=
  match lookupCache env filename with
  | some c => .inline_content c
  | none =>
    match lookupBackup env node_id filename with
    | some c => .inline_content c
    | none =>
      match get_available_ss env.nodes with
      | some f =>
        match ssOpt with
        | some ss => if f = ss then .unavailable else .failover f.id f.ip f.client_port
        | none => .failover f.id f.ip f.client_port
      | none => .unavailable

/-- `MSG_READ` handler of naming_server_modular.c (lines 260-373), for an
existing readable file: live node gives a referral; otherwise the
cache/backup/failover chain runs. -/
def msg_read_modular (env : ReadEnv) (filename node_id : String) : ReadOutcome :=
  match find_ss_by_id env.nodes node_id with
  | some ss =>
    if ss.is_active then .referral ss.ip ss.client_port
    else read_fallback env filename node_id (some ss)
  | none => read_fallback env filename node_id none

/-- `MSG_READ` handler of naming_server.c (lines 1131-1199), for an existing
readable file: a missing or inactive owning node is answered `UNAVAILABLE`
immediately — the coordinator state (cache, backups) is never consulted. -/
def msg_read (env : ReadEnv) (node_id : String) : ReadOutcome :=
  match find_ss_by_id env.nodes node_id with
  | some ss => if ss.is_active then .referral ss.ip ss.client_port else .unavailable
  | none => .unavailable

/-- Helper: `add_access` always leaves an entry for the given username in the
ACL (either the updated existing entry or the freshly prepended one). -/
theorem add_access_has_user (acl : List AclEntry) (u : String) (r w : Bool) :
    (add_access acl u r w).any (fun e => e.username == u) = true := by
  induction acl with
  | nil => simp [add_access, updateAcl]
  | cons e rest ih =>
    by_cases h : e.username = u
    · simp [add_access, updateAcl, h]
    · cases hm : updateAcl rest u r w with
      | some rest2 =>
        have hadd : add_access rest u r w = rest2 := by simp [add_access, hm]
        have hr2 : rest2.any (fun x => x.username == u) = true := hadd ▸ ih
        simp [add_access, updateAcl, h, hm, hr2]
      | none => simp [add_access, updateAcl, h, hm]

/-- Claim C1: the spec says a sentence boundary is produced only by a single
`.`, `!` or `?`, so a run of delimiters is not a boundary and
`wait... ok.` is one sentence.  The code splits at every delimiter: the
evaluation below shows `wait... ok.` parses into four sentences
(`wait.`, `.`, `.`, `ok.`), while `Hi. Bye.` does give two.  This
contradicts the single-delimiter rule stated in `parse_sentences`' own
header comment and implemented by `sentence_has_delimiter`. -/
theorem C1_every_delimiter_splits :
    parse_sentences (strChars "wait... ok.") =
      [ strChars "wait.", strChars ".", strChars ".", strChars "ok." ] ∧
    (parse_sentences (strChars "wait... ok.")).length = 4 ∧
    (parse_sentences (strChars "Hi. Bye.")).length = 2 := by
  decide

/-- Claim C2: the spec's invariant `can_write ⇒ can_read` fails on the
approval path: `respond_to_request` approving a pending write-only request
(`access_type = 2`) computes `can_read = (2 == 1 || 2 == 3) = false` and adds
an ACL entry with `can_write = true, can_read = false`. -/
theorem C2_approve_write_only_lacks_read :
    respond_to_request [⟨7, "bob", 2, 0⟩] [] 7 true =
      some ([⟨7, "bob", 2, 1⟩], [⟨"bob", false, true⟩]) ∧
    (∃ e ∈ [AclEntry.mk "bob" false true], e.can_write = true ∧ e.can_read = false) := by
  decide

/-- Counterexample to claim C3: `ADDACCESS` with the owner as target is not
rejected — the handler checks only that the requester is the owner and that
the target is registered, so the owner ends up with an ACL entry. -/
theorem C3_addaccess_owner_counterexample :
    ((msg_add_access ⟨"alice", []⟩ "alice" "alice" 1 ["alice"]).2.acl.any
        (fun e => e.username == "alice")) = true ∧
    (msg_add_access ⟨"alice", []⟩ "alice" "alice" 1 ["alice"]).1 = 200 := by
  decide

/-- Claim C3 (amended): `REMACCESS` does reject removing the owner (error 400,
state unchanged), but `ADDACCESS` performs no owner-exclusion check: with the
owner as target it succeeds and the ACL gains (or keeps) an entry carrying
the owner's username, so the owner can appear in the ACL list. -/
theorem C3_owner_not_excluded (f : FileRec) (flags : Nat) (registered : List String)
    (h : f.owner ∈ registered) :
    msg_rem_access f f.owner f.owner = (400, f) ∧
    ((msg_add_access f f.owner f.owner flags registered).2.acl.any
        (fun e => e.username == f.owner)) = true := by
  constructor
  · simp [msg_rem_access]
  · have hc : registered.contains f.owner = true := by
      simpa [List.contains] using List.elem_eq_true_of_mem h
    simp only [msg_add_access]
    rw [if_neg (by simp), if_neg (by simpa using h)]
    exact add_access_has_user _ _ _ _

/-- Witness for C3_owner_not_excluded at a concrete file record. -/
theorem C3_owner_not_excluded_witness :
    ("alice" : String) ∈ ["alice"] ∧
    msg_rem_access ⟨"alice", []⟩ "alice" "alice" = (400, ⟨"alice", []⟩) ∧
    ((msg_add_access ⟨"alice", []⟩ "alice" "alice" 3 ["alice"]).2.acl.any
        (fun e => e.username == "alice")) = true := by
  have h := C3_owner_not_excluded ⟨"alice", []⟩ 3 ["alice"] (by decide)
  exact ⟨by decide, h.1, h.2⟩

/-- Counterexample to claim C4: on the modular storage server the second
consecutive UNDO fails with `ERR_INVALID_REQUEST` (400, the spec's
`BAD_REQ`), not with `DENIED` (403). -/
theorem C4_modular_second_undo_not_denied :
    (msg_undo_modular ⟨ strChars "a", some (strChars "b"), false ⟩).1 = 200 ∧
    (msg_undo_modular (msg_undo_modular ⟨ strChars "a", some (strChars "b"), false ⟩).2).1 = 400 ∧
    (400 : Nat) ≠ 403 := by
  decide

/-- Claim C4 (amended): with a sidecar present and the undo flag clear, UNDO
succeeds on both servers and sets the flag; an immediately following UNDO is
refused leaving the state unchanged — with `DENIED` (403) on the monolithic
server but `ERR_INVALID_REQUEST` (400) on the modular one; an `ETIRW` commit
clears the flag, after which one UNDO succeeds again. -/
theorem C4_undo_once (st : FileState) (b : List Char)
    (hb : st.backup = some b) (hf : st.undoFlag = false) :
    msg_undo st = (200, ⟨b, some st.live, true⟩) ∧
    msg_undo_modular st = (200, ⟨b, some b, true⟩) ∧
    msg_undo (msg_undo st).2 = (403, (msg_undo st).2) ∧
    msg_undo_modular (msg_undo_modular st).2 = (400, (msg_undo_modular st).2) ∧
    (∀ c, (etirw_commit (msg_undo st).2 c).undoFlag = false ∧
       msg_undo (etirw_commit (msg_undo st).2 c) = (200, ⟨b, some c, true⟩)) := by
  refine ⟨?_, ?_, ?_, ?_, fun c => ⟨?_, ?_⟩⟩ <;>
    simp [msg_undo, msg_undo_modular, etirw_commit, hb, hf]

/-- Witness for C4_undo_once at a concrete file state. -/
theorem C4_undo_once_witness :
    msg_undo ⟨ strChars "new", some (strChars "old"), false ⟩ =
      (200, ⟨ strChars "old", some (strChars "new"), true ⟩) ∧
    msg_undo (msg_undo ⟨ strChars "new", some (strChars "old"), false ⟩).2 =
      (403, (msg_undo ⟨ strChars "new", some (strChars "old"), false ⟩).2) := by
  have h := C4_undo_once ⟨ strChars "new", some (strChars "old"), false ⟩ (strChars "old") rfl rfl
  exact ⟨h.1, h.2.2.1⟩

/-- Counterexample to claim C5: for a file with 2 sentences, a negative
`sentence_num` fails `SENT_OOR` with `word_index = 1` (the count minus one),
not with the current count 2 as claimed. -/
theorem C5_negative_index_counterexample :
    (parse_sentences (strChars "Hi. Bye.")).length = 2 ∧
    write_sentence_access (strChars "Hi. Bye.") (-1) = SentAccess.oor 1 ∧
    write_sentence_access (strChars "Hi. Bye.") (-1) ≠ SentAccess.oor 2 := by
  decide

/-- Claim C5 (amended): with `S` the parsed sentence count, indices `0..S-1`
are accessible, index `S` is accessible exactly when sentence `S-1` ends with
a single delimiter (an empty sentence is then appended); for an empty file
only index 0 is accessible and other indices fail `SENT_OOR` with
`word_index = 0`; for a non-empty file an index above `S` fails `SENT_OOR`
with `word_index = S` (e.g. 2 sentences and index 5 reply 2), while a
negative index fails `SENT_OOR` with `word_index = S - 1`. -/
theorem C5_sentence_access_rules (content : List Char) (n : Int) :
    ((parse_sentences content).length = 0 →
       (n = 0 → write_sentence_access content n = SentAccess.ok [[]]) ∧
       (n ≠ 0 → write_sentence_access content n = SentAccess.oor 0)) ∧
    (0 < (parse_sentences content).length →
       (0 ≤ n → n < ((parse_sentences content).length : Int) →
          write_sentence_access content n = SentAccess.ok (parse_sentences content)) ∧
       (n = ((parse_sentences content).length : Int) →
          sentence_has_delimiter ((parse_sentences content).getLastD []) = true →
          write_sentence_access content n = SentAccess.ok (parse_sentences content ++ [[]])) ∧
       (n = ((parse_sentences content).length : Int) →
          sentence_has_delimiter ((parse_sentences content).getLastD []) = false →
          write_sentence_access content n =
            SentAccess.oor (((parse_sentences content).length : Int) - 1)) ∧
       (n < 0 →
          write_sentence_access content n =
            SentAccess.oor (((parse_sentences content).length : Int) - 1)) ∧
       (((parse_sentences content).length : Int) < n →
          write_sentence_access content n =
            SentAccess.oor ((parse_sentences content).length : Int))) := by
  refine ⟨fun h0 => ⟨fun hn => ?_, fun hn => ?_⟩,
    fun hpos => ⟨fun h1 h2 => ?_, fun h1 h2 => ?_, fun h1 h2 => ?_, fun h1 => ?_, fun h1 => ?_⟩⟩ <;>
      simp only [write_sentence_access] <;>
      split_ifs <;> first | rfl | omega | simp_all

/-- Witness for C5_sentence_access_rules: the spec's own example S4 — a file
with 2 sentences and `sentence_num = 5` replies `SENT_OOR` with
`word_index = 2`. -/
theorem C5_sentence_access_rules_witness :
    write_sentence_access (strChars "Hi. Bye.") 5 = SentAccess.oor 2 := by
  have h := ((C5_sentence_access_rules (strChars "Hi. Bye.") 5).2 (by decide)).2.2.2.2 (by decide)
  rw [h]
  decide

/-- Counterexample to claim C6: the modular edit loop does not tokenize the
payload — a two-word payload becomes a single inserted word — and an empty
payload deletes the word at the index, losing a word. -/
theorem C6_modular_not_tokenized :
    edit_step_modular [] 0 (strChars "two words") = EditResult.ok [ strChars "two words" ] ∧
    tokenizeWs (strChars "two words") = [ strChars "two", strChars "words" ] ∧
    edit_step_modular [ strChars "w" ] 0 [] = EditResult.ok [] := by
  decide

/-- Claim C6 (amended): both edit loops accept `word_index` exactly in
`[0, current_word_count]` and reply `WORD_OOR` carrying the current count
otherwise.  In the monolithic loop the payload is tokenized on whitespace
(up to 256 tokens) and the tokens are inserted at the index shifting the
existing words rightward, so no word is overwritten or lost (the old word
list is a sublist of the new one).  In the modular loop the payload is
inserted verbatim as one single word, and an empty payload deletes the word
at the index (a no-op when the index equals the count). -/
theorem C6_word_edit_rules (words : List (List Char)) (idx : Int) (payload : List Char) :
    ((idx < 0 ∨ (words.length : Int) < idx) →
       edit_step words idx payload = EditResult.wordOor words.length ∧
       edit_step_modular words idx payload = EditResult.wordOor words.length) ∧
    (0 ≤ idx → idx ≤ (words.length : Int) →
       (tokenizeWs payload = [] → edit_step words idx payload = EditResult.ok words) ∧
       (tokenizeWs payload ≠ [] →
          edit_step words idx payload =
            EditResult.ok
              (words.take idx.toNat ++ (tokenizeWs payload).take 256 ++ words.drop idx.toNat)) ∧
       (∀ l, edit_step words idx payload = EditResult.ok l → words.Sublist l) ∧
       (payload ≠ [] →
          edit_step_modular words idx payload =
            EditResult.ok (words.take idx.toNat ++ [payload] ++ words.drop idx.toNat)) ∧
       (payload = [] → idx < (words.length : Int) →
          edit_step_modular words idx payload =
            EditResult.ok (words.take idx.toNat ++ words.drop (idx.toNat + 1))) ∧
       (payload = [] → idx = (words.length : Int) →
          edit_step_modular words idx payload = EditResult.ok words)) := by
  constructor
  · intro hout
    constructor <;> simp [edit_step, edit_step_modular] <;> omega
  · intro hlo hhi
    have hin : ¬ (idx < 0 || (words.length : Int) < idx) = true := by
      simp only [Bool.or_eq_true, decide_eq_true_eq]
      omega
    refine ⟨fun ht => ?_, fun ht => ?_, fun l hl => ?_, fun hp => ?_, fun hp hlt => ?_,
      fun hp heq => ?_⟩
    · simp [edit_step, hin, ht]
    · simp [edit_step, hin, ht]
    · by_cases ht : tokenizeWs payload = []
      · simp [edit_step, hin, ht] at hl
        rw [← hl]
      · simp [edit_step, hin, ht] at hl
        have hsub : List.Sublist (words.take idx.toNat ++ words.drop idx.toNat)
            (words.take idx.toNat ++ ((tokenizeWs payload).take 256 ++ words.drop idx.toNat)) :=
          (List.append_sublist_append_left _).mpr (List.sublist_append_right _ _)
        rw [List.take_append_drop] at hsub
        rw [← hl]
        exact hsub
    · cases payload with
      | nil => exact absurd rfl hp
      | cons a rest => simp [edit_step_modular, hin]
    · subst hp
      simp [edit_step_modular, hin, hlt]
    · subst hp
      have hnl : ¬ idx < (words.length : Int) := by omega
      simp [edit_step_modular, hin, hnl]

/-- Witness for C6_word_edit_rules: inserting the payload `x y` at index 1 of
a two-word sentence on the monolithic server tokenizes it into two words and
shifts the second word right. -/
theorem C6_word_edit_rules_witness :
    edit_step [ strChars "hello", strChars "world" ] 1 (strChars "x y") =
      EditResult.ok [ strChars "hello", strChars "x", strChars "y", strChars "world" ] := by
  have h := ((C6_word_edit_rules [ strChars "hello", strChars "world" ] 1 (strChars "x y")).2
      (by decide) (by decide)).2.1 (by decide)
  rw [h]
  decide

/-- Counterexample to claim C7: the monolithic coordinator answers
`UNAVAILABLE` as soon as the owning node is unreachable even though the very
same coordinator state has the file in its cache directory — the claimed
cache/backup/failover chain is never consulted. -/
theorem C7_mono_no_fallback :
    msg_read ⟨[⟨"SS1", "10.0.0.1", 9001, false⟩], [("doc", strChars "hi")], []⟩ "SS1" =
      ReadOutcome.unavailable ∧
    lookupCache ⟨[⟨"SS1", "10.0.0.1", 9001, false⟩], [("doc", strChars "hi")], []⟩ "doc" =
      some (strChars "hi") := by
  decide

/-- Claim C7 (amended): when the owning node is missing or inactive, the
modular coordinator tries the cache directory, then the backup directory
(serving content inline on a hit), then reassigns the file to an available
node with a referral, and answers `UNAVAILABLE` only when all three fail;
the monolithic coordinator instead answers `UNAVAILABLE` immediately. -/
theorem C7_read_fallback_chain (env : ReadEnv) (filename node_id : String)
    (hdown : Option.all (fun ss => !ss.is_active) (find_ss_by_id env.nodes node_id) = true) :
    (∀ c, lookupCache env filename = some c →
       msg_read_modular env filename node_id = ReadOutcome.inline_content c) ∧
    (lookupCache env filename = none →
       ∀ c, lookupBackup env node_id filename = some c →
       msg_read_modular env filename node_id = ReadOutcome.inline_content c) ∧
    (lookupCache env filename = none → lookupBackup env node_id filename = none →
       ∀ f2, get_available_ss env.nodes = some f2 →
       msg_read_modular env filename node_id = ReadOutcome.failover f2.id f2.ip f2.client_port) ∧
    (lookupCache env filename = none → lookupBackup env node_id filename = none →
       get_available_ss env.nodes = none →
       msg_read_modular env filename node_id = ReadOutcome.unavailable) ∧
    msg_read env node_id = ReadOutcome.unavailable := by
  cases hss : find_ss_by_id env.nodes node_id with
  | none =>
    refine ⟨fun c hc => ?_, fun hc c hb => ?_, fun hc hb f2 hf => ?_, fun hc hb hf => ?_, ?_⟩
    · simp [msg_read_modular, read_fallback, hss, hc]
    · simp [msg_read_modular, read_fallback, hss, hc, hb]
    · simp [msg_read_modular, read_fallback, hss, hc, hb, hf]
    · simp [msg_read_modular, read_fallback, hss, hc, hb, hf]
    · simp [msg_read, hss]
  | some ss =>
    have hact : ss.is_active = false := by
      rw [hss] at hdown
      simpa using hdown
    refine ⟨fun c hc => ?_, fun hc c hb => ?_, fun hc hb f2 hf => ?_, fun hc hb hf => ?_, ?_⟩
    · simp [msg_read_modular, read_fallback, hss, hact, hc]
    · simp [msg_read_modular, read_fallback, hss, hact, hc, hb]
    · have hne : ¬ f2 = ss := by
        intro heq
        have h2 : f2.is_active = true := List.find?_some hf
        rw [heq, hact] at h2
        exact Bool.false_ne_true h2
      simp [msg_read_modular, read_fallback, hss, hact, hc, hb, hf, hne]
    · simp [msg_read_modular, read_fallback, hss, hact, hc, hb, hf]
    · simp [msg_read, hss, hact]

/-- Witness for C7_read_fallback_chain: an inactive owning node and a cache
hit serve the cached content inline. -/
theorem C7_read_fallback_chain_witness :
    msg_read_modular ⟨[⟨"SS1", "10.0.0.1", 9001, false⟩], [("doc", strChars "hi")], []⟩
        "doc" "SS1" =
      ReadOutcome.inline_content (strChars "hi") := by
  exact (C7_read_fallback_chain ⟨[⟨"SS1", "10.0.0.1", 9001, false⟩], [("doc", strChars "hi")], []⟩
      "doc" "SS1" (by decide)).1 (strChars "hi") (by decide)

/-- Counterexample to claim C8: after registering node A and then node B
(both active), the CREATE default choice is B, the most recently registered
node, not the earliest-registered A. -/
theorem C8_most_recent_counterexample :
    get_available_ss
        (register_storage_server (register_storage_server [] "A" "ipA" 9001) "B" "ipB" 9002) =
      some ⟨"B", "ipB", 9002, true⟩ ∧
    msg_create_select
        (register_storage_server (register_storage_server [] "A" "ipA" 9001) "B" "ipB" 9002) "" =
      CreateSelect.chosen ⟨"B", "ipB", 9002, true⟩ ∧
    ("B" : String) ≠ "A" := by
  decide

/-- Claim C8 (amended): registration prepends the new (active) record to the
node list and `get_available_ss` takes the first active entry in list order,
so a CREATE without an explicit node-id is assigned to the most recently
registered currently active node — in particular, a just-registered node is
always the default choice. -/
theorem C8_create_picks_most_recent (nodes : List NodeRec) (id ip : String) (p : Nat) :
    get_available_ss (register_storage_server nodes id ip p) = some ⟨id, ip, p, true⟩ ∧
    msg_create_select (register_storage_server nodes id ip p) "" =
      CreateSelect.chosen ⟨id, ip, p, true⟩ := by
  constructor <;> simp [get_available_ss, register_storage_server, msg_create_select]

/-- Helper: removing a session yields a sublist of the session list. -/
theorem remove_active_session_sublist (sessions : List Session) (u : String) :
    List.Sublist (remove_active_session sessions u) sessions := by
  induction sessions with
  | nil => simp [remove_active_session]
  | cons s rest ih =>
    by_cases h : s.username = u
    · simp only [remove_active_session, if_pos h]
      exact List.sublist_cons_self s rest
    · simp only [remove_active_session, if_neg h]
      exact ih.cons₂ s

/-- Claim C9 (confirmed): under the single-session invariant, a
`REGISTER_CLIENT` for a username with an existing active session is rejected
with `LOCKED` describing that session and changes nothing; a registration for
a fresh username adds exactly one session and preserves the invariant; and
removing a session preserves the invariant. -/
theorem C9_single_session (sessions : List Session) (u ip : String)
    (hinv : sessions.Pairwise (fun a b => a.username ≠ b.username)) :
    (∀ s, find_active_session sessions u = some s →
       register_client sessions u ip = (RegisterResult.locked_reply s, sessions)) ∧
    (find_active_session sessions u = none →
       register_client sessions u ip = (RegisterResult.welcome, ⟨u, ip⟩ :: sessions) ∧
       List.Pairwise (fun a b => a.username ≠ b.username) (⟨u, ip⟩ :: sessions)) ∧
    List.Pairwise (fun a b => a.username ≠ b.username) (remove_active_session sessions u) := by
  refine ⟨fun s hs => ?_, fun hn => ⟨?_, ?_⟩, ?_⟩
  · simp [register_client, hs]
  · have hany : sessions.any (fun s => s.username == u) = false := by
      rw [List.any_eq_false]
      intro s hsm
      have := List.find?_eq_none.mp hn s hsm
      simpa using this
    simp [register_client, hn, add_active_session, hany]
  · rw [List.pairwise_cons]
    refine ⟨fun b hb => ?_, hinv⟩
    have := List.find?_eq_none.mp hn b hb
    simp at this
    exact fun h => this h.symm
  · exact hinv.sublist (remove_active_session_sublist sessions u)

/-- Witness for C9_single_session: a second login for `alice` is rejected
with `LOCKED` carrying the pre-existing session, adding nothing. -/
theorem C9_single_session_witness :
    register_client [⟨"alice", "1.1.1.1"⟩] "alice" "2.2.2.2" =
      (RegisterResult.locked_reply ⟨"alice", "1.1.1.1"⟩, [⟨"alice", "1.1.1.1"⟩]) := by
  exact (C9_single_session [⟨"alice", "1.1.1.1"⟩] "alice" "2.2.2.2" (by simp)).1
    ⟨"alice", "1.1.1.1"⟩ (by decide)

/-- Claim C10 (confirmed): sentence-lock acquisition is not reentrant — an
attempt on a `(file, sentence)` pair that has any lock entry is refused with
`LOCKED` (423) and the holder's username, regardless of the requester (even
the holder themself), and acquisition succeeds exactly when no entry exists
for the pair. -/
theorem C10_lock_not_reentrant (locks : List SentenceLock) (f : String) (n : Int) (u : String) :
    (∀ l, find_sentence_lock locks f n = some l →
       write_lock_attempt locks f n u = LockAttempt.refused 423 l.username) ∧
    (find_sentence_lock locks f n = none →
       write_lock_attempt locks f n u = LockAttempt.acquired (⟨f, n, u⟩ :: locks)) ∧
    ((∃ l2, write_lock_attempt locks f n u = LockAttempt.acquired l2) ↔
       find_sentence_lock locks f n = none) := by
  have hiff : locks.any (fun l => l.filename == f && l.sentence_num == n) = true ↔
      (find_sentence_lock locks f n).isSome = true := by
    rw [List.any_eq_true, find_sentence_lock, List.find?_isSome]
  refine ⟨fun l hl => ?_, fun hn => ?_, ?_⟩
  · have hany : locks.any (fun l => l.filename == f && l.sentence_num == n) = true :=
      hiff.mpr (by simp [hl])
    simp [write_lock_attempt, add_sentence_lock, hany, hl]
  · have hany : locks.any (fun l => l.filename == f && l.sentence_num == n) = false := by
      rw [← Bool.not_eq_true, hiff, hn]
      simp
    simp [write_lock_attempt, add_sentence_lock, hany]
  · constructor
    · rintro ⟨l2, hl2⟩
      cases hf : find_sentence_lock locks f n with
      | none => rfl
      | some l =>
        have hany : locks.any (fun l => l.filename == f && l.sentence_num == n) = true :=
          hiff.mpr (by simp [hf])
        simp [write_lock_attempt, add_sentence_lock, hany, hf] at hl2
    · intro hn
      have hany : locks.any (fun l => l.filename == f && l.sentence_num == n) = false := by
        rw [← Bool.not_eq_true, hiff, hn]
        simp
      exact ⟨⟨f, n, u⟩ :: locks, by simp [write_lock_attempt, add_sentence_lock, hany]⟩

/-- Witness for C10_lock_not_reentrant: the holder `alice` re-attempting the
lock on the same `(file, sentence)` is refused with her own username. -/
theorem C10_lock_not_reentrant_witness :
    write_lock_attempt [⟨"doc", 0, "alice"⟩] "doc" 0 "alice" =
      LockAttempt.refused 423 "alice" := by
  exact (C10_lock_not_reentrant [⟨"doc", 0, "alice"⟩] "doc" 0 "alice").1
    ⟨"doc", 0, "alice"⟩ (by decide)
